import Mathlib

/-!
Verification of the BMI / diet-recommendation app (`src/app.py`).

The core logic is embedded shallowly:
* Python `float(str)` conversion is modelled by `pyFloat` over exact rationals
  (a digit-level parse `pyFloatRepr` followed by exact rational evaluation);
* `calculate_bmi` mirrors `app.py` lines 107-114 (the bare `except` that turns
  conversion failures and the zero-height `ZeroDivisionError` into `None`);
* `categorize_bmi` mirrors lines 116-124;
* the prompt template and `.format(**inputs)` call are modelled by
  `format_prompt` (lines 21-56, 60);
* `generate_recommendations` (lines 59-65) takes the remote model as an
  explicit oracle `String → Except String String`;
* `capture_usage` mirrors lines 71-77, with the dict lookups of
  `user_data.get` modelled by `Option String` fields;
* the submit handler (lines 252-318) is modelled by `submit_handler`.
-/

/-- Consume leading digits of a character list, accumulating their value and
count; returns (value, number of digits consumed, rest). -/
def takeDigits : List Char → Nat → Nat → Nat × Nat × List Char
  | [], acc, n => (acc, n, [])
  | c :: cs, acc, n =>
    if c.isDigit then takeDigits cs (acc * 10 + (c.toNat - 48)) (n + 1)
    else (acc, n, c :: cs)

/-- The digits of a parsed decimal literal: sign, integer-part value,
fraction-part value and digit count, exponent sign and value. -/
structure FloatRepr where
  neg : Bool
  ip : Nat
  fp : Nat
  nf : Nat
  eneg : Bool
  ev : Nat
deriving DecidableEq, Repr

/-- Parse an unsigned decimal mantissa: digits, optionally with a decimal
point (`175`, `29.9`, `.5`, `70.`); at least one digit must be present.
Returns (integer part, fraction part, fraction digit count, rest). -/
def parseMantissa (cs : List Char) : Option (Nat × Nat × Nat × List Char) :=
  let (ip, ni, rest) := takeDigits cs 0 0
  match rest with
  | '.' :: rest2 =>
    let (fp, nf, rest3) := takeDigits rest2 0 0
    if ni = 0 ∧ nf = 0 then none else some (ip, fp, nf, rest3)
  | _ => if ni = 0 then none else some (ip, 0, 0, rest)

/-- Parse an optional exponent suffix `e`/`E` with optional sign; at least one
digit must follow the marker, otherwise the whole literal is invalid. -/
def parseExpPart (cs : List Char) : Option (Bool × Nat × List Char) :=
  match cs with
  | 'e' :: rest | 'E' :: rest =>
    let (sgn, rest2) : Bool × List Char :=
      match rest with
      | '-' :: r => (true, r)
      | '+' :: r => (false, r)
      | r => (false, r)
    let (ev, ne, rest3) := takeDigits rest2 0 0
    if ne = 0 then none else some (sgn, ev, rest3)
  | rest => some (false, 0, rest)

/-- Digit-level parse underlying `pyFloat`: optional surrounding whitespace,
optional sign, decimal mantissa, optional exponent, nothing else. -/
def pyFloatRepr (s : String) : Option FloatRepr :=
  let cs := s.data.dropWhile Char.isWhitespace
  let (neg, cs2) : Bool × List Char :=
    match cs with
    | '-' :: r => (true, r)
    | '+' :: r => (false, r)
    | r => (false, r)
  match parseMantissa cs2 with
  | none => none
  | some (ip, fp, nf, rest) =>
    match parseExpPart rest with
    | none => none
    | some (eneg, ev, rest2) =>
      if rest2.dropWhile Char.isWhitespace = [] then
        some ⟨neg, ip, fp, nf, eneg, ev⟩
      else none

/-- Exact rational value of a parsed decimal literal. -/
def FloatRepr.toRat (r : FloatRepr) : ℚ :=
  let m : ℚ := (r.ip : ℚ) + (r.fp : ℚ) / (10 : ℚ) ^ r.nf
  let e : ℚ := if r.eneg then 1 / (10 : ℚ) ^ r.ev else (10 : ℚ) ^ r.ev
  if r.neg then -(m * e) else m * e

/-- Models the Python builtin `float(s)` on decimal literals, returning the
exact rational value.  Special values (`inf`, `nan`), which have no rational
counterpart, and digit underscores are outside this model; no claim under
verification touches them. -/
def pyFloat (s : String) : Option ℚ :=
  (pyFloatRepr s).map FloatRepr.toRat

/-- `calculate_bmi` (`app.py` lines 107-114): converts both strings with
`float`, converts height from centimeters to meters, and divides.  The bare
`except` returns `None` on any failure, i.e. on a conversion error and on the
`ZeroDivisionError` raised when the squared height is zero. -/
def calculate_bmi (weight height : String) : Option ℚ :=
  match pyFloat weight, pyFloat height with
  | some weight_kg, some h =>
    let height_m : ℚ := h / 100
    if height_m ^ 2 = 0 then none
    else some (weight_kg / height_m ^ 2)
  | _, _ => none

/-- `categorize_bmi` (`app.py` lines 116-124): strict-less-than comparison
chain returning (category, color, advisory message). -/
def categorize_bmi (bmi : ℚ) : String × String × String :=
  if bmi < 18.5 then
    ("Underweight", "blue",
      "Consider consulting with a healthcare provider about healthy weight gain.")
  else if bmi < 24.9 then
    ("Normal", "green",
      "Your weight is within a healthy range for your height.")
  else if bmi < 29.9 then
    ("Overweight", "orange",
      "Consider moderate lifestyle changes to achieve a healthier weight.")
  else
    ("Obesity", "red",
      "Consider consulting with a healthcare provider about weight management.")

/-- The eleven keys of the `input_data` dict built by the submit handler
(`app.py` lines 255-261), which are exactly the placeholders of the prompt
template. -/
structure InputData where
  name : String
  age : String
  gender : String
  weight : String
  height : String
  veg_or_nonveg : String
  disease : String
  region : String
  state : String
  allergics : String
  foodtype : String
deriving DecidableEq, Repr

/-- `prompt_template_resto.format(**inputs)` (`app.py` lines 21-56 and 60):
the fixed template with every placeholder replaced by the corresponding
`input_data` value.  Each placeholder occurs exactly once, so the format call
is the concatenation of the literal segments with the field values. -/
def format_prompt (i : InputData) : String :=
  "\nDiet Recommendation System:\nBased on the following user profile, provide detailed, well-formatted recommendations:\n\nUser Profile:\n- Name: "
  ++ i.name ++ "\n- Age: " ++ i.age ++ "\n- Gender: " ++ i.gender
  ++ "\n- Weight: " ++ i.weight ++ " kg\n- Height: " ++ i.height
  ++ " cm\n- Diet Preference: " ++ i.veg_or_nonveg
  ++ "\n- Health Conditions: " ++ i.disease ++ "\n- Region: " ++ i.region
  ++ "\n- State: " ++ i.state ++ "\n- Allergies: " ++ i.allergics
  ++ "\n- Food Type Preference: " ++ i.foodtype
  ++ "\n\nPlease provide recommendations in the following CLEARLY SEPARATED sections:\n\n## RESTAURANTS\nProvide 6 restaurant names suitable for this person\x27s diet and preferences. Include a brief description of each.\n\n## BREAKFAST IDEAS\nSuggest 6 nutritious breakfast options tailored to their needs. Include ingredients and brief preparation notes.\n\n## DINNER IDEAS\nRecommend 5 balanced dinner options appropriate for their diet. Include key ingredients.\n\n## WORKOUT RECOMMENDATIONS\nSuggest 6 exercise activities suited to their profile. Include frequency and duration guidelines.\n\n## HEALTH NOTES\nProvide 3-4 specific health tips based on their profile.\n\nFormat each section with clear headings, bullet points, and concise descriptions.\n"

/-- `generate_recommendations` (`app.py` lines 59-65).  The remote model
(`model.generate_content` followed by `.text`) is an explicit oracle mapping
the prompt to either the reply text or the stringified exception; the
`try`/`except` returns the error message behind a fixed leading marker. -/
def generate_recommendations (inputs : InputData)
    (remote : String → Except String String) : String :=
  let prompt := format_prompt inputs
  match remote prompt with
  | Except.ok text => text
  | Except.error e => "Error generating recommendations: " ++ e

/-- One entry of `st.session_state.usage_data` (`app.py` lines 72-76). -/
structure UsageEntry where
  timestamp : Nat
  user_age : String
  user_region : String
deriving DecidableEq, Repr

/-- The `user_data` dict as read by `capture_usage`: the results of the two
`.get` lookups, `none` when the key is absent from the dict. -/
structure UserDataView where
  age : Option String
  region : Option String
deriving DecidableEq, Repr

/-- `capture_usage` (`app.py` lines 71-77): appends one entry to the session
usage list; `user_data.get(k, "Unknown")` yields `"Unknown"` exactly when the
key is absent.  `datetime.now()` is passed in as `now`. -/
def capture_usage (log : List UsageEntry) (now : Nat) (user_data : UserDataView) :
    List UsageEntry :=
  log ++ [{ timestamp := now,
            user_age := user_data.age.getD "Unknown",
            user_region := user_data.region.getD "Unknown" }]

/-- The raw form fields of one submission (`app.py` lines 220-244); text
inputs default to `""` when left blank, and the selectboxes always hold one
of their options. -/
structure FormFields where
  name : String
  age : String
  gender : String
  weight : String
  height : String
  veg_or_nonveg : String
  disease : String
  region : String
  state : String
  allergics : String
  foodtype : String
deriving DecidableEq, Repr

/-- The `input_data` dict built on a valid submission (`app.py` lines
255-261); Python `s or d` on strings yields `d` exactly when `s` is empty. -/
def mk_input_data (f : FormFields) : InputData :=
  { name := f.name, age := f.age, gender := f.gender,
    weight := f.weight, height := f.height, veg_or_nonveg := f.veg_or_nonveg,
    disease := if f.disease = "" then "None" else f.disease,
    region := if f.region = "" then "Not specified" else f.region,
    state := if f.state = "" then "Not specified" else f.state,
    allergics := if f.allergics = "" then "None" else f.allergics,
    foodtype := if f.foodtype = "" then "General" else f.foodtype }

/-- Observable outcome of one submission (`app.py` lines 252-318): whether
the validation error was shown, whether the remote model was called, the BMI
panel contents (shown only when `calculate_bmi` returned a truthy value), the
rendered recommendation text, and the usage list after the submission. -/
structure SubmitResult where
  validation_error : Bool
  remote_called : Bool
  bmi_panel : Option (ℚ × String × String × String)
  recommendations : Option String
  usage_data : List UsageEntry
deriving Repr

/-- The submit handler (`app.py` lines 252-318).  `all([name, age, gender,
weight, height, veg_or_nonveg])` is Python truthiness: every required string
non-empty.  On success it builds `input_data`, appends a usage entry, computes
the BMI, calls the remote model once, and renders; `if bmi:` hides the BMI
panel when the BMI is `None` (or the falsy `0.0`).  On a failed check it only
shows the validation error. -/
def submit_handler (f : FormFields) (remote : String → Except String String)
    (log : List UsageEntry) (now : Nat) : SubmitResult :=
  if f.name ≠ "" ∧ f.age ≠ "" ∧ f.gender ≠ "" ∧ f.weight ≠ "" ∧
      f.height ≠ "" ∧ f.veg_or_nonveg ≠ "" then
    let inputs := mk_input_data f
    let log2 := capture_usage log now ⟨some inputs.age, some inputs.region⟩
    let bmi := calculate_bmi f.weight f.height
    let recommendations := generate_recommendations inputs remote
    { validation_error := false,
      remote_called := true,
      bmi_panel :=
        match bmi with
        | some b => if b ≠ 0 then some (b, categorize_bmi b) else none
        | none => none,
      recommendations := some recommendations,
      usage_data := log2 }
  else
    { validation_error := true, remote_called := false,
      bmi_panel := none, recommendations := none, usage_data := log }

/-- Evaluation helper: `float("70") = 70`. -/
theorem pyFloat_lit_70 : pyFloat "70" = some 70 := by
  have h : pyFloatRepr "70" = some ⟨false, 70, 0, 0, false, 0⟩ := by decide
  rw [pyFloat, h]
  norm_num [FloatRepr.toRat]

/-- Evaluation helper: `float("175") = 175`. -/
theorem pyFloat_lit_175 : pyFloat "175" = some 175 := by
  have h : pyFloatRepr "175" = some ⟨false, 175, 0, 0, false, 0⟩ := by decide
  rw [pyFloat, h]
  norm_num [FloatRepr.toRat]

/-- Evaluation helper: `float("0") = 0`. -/
theorem pyFloat_lit_0 : pyFloat "0" = some 0 := by
  have h : pyFloatRepr "0" = some ⟨false, 0, 0, 0, false, 0⟩ := by decide
  rw [pyFloat, h]
  norm_num [FloatRepr.toRat]

/-- Evaluation helper: `float("abc")` raises `ValueError`, i.e. `none`. -/
theorem pyFloat_lit_abc : pyFloat "abc" = none := by
  have h : pyFloatRepr "abc" = none := by decide
  rw [pyFloat, h]
  rfl

/-- C1: `categorize_bmi` partitions BMI values into exactly four categories
by a strict-less-than comparison chain: `bmi < 18.5` is Underweight,
`18.5 ≤ bmi < 24.9` is Normal, `24.9 ≤ bmi < 29.9` is Overweight and
`29.9 ≤ bmi` is Obesity; each exact boundary value falls into the higher
category, so `categorize_bmi 29.9` is Obesity, `categorize_bmi 29.89` is
Overweight and `categorize_bmi 18.5` is Normal. -/
theorem categorize_bmi_thresholds (bmi : ℚ) :
    (bmi < 18.5 → (categorize_bmi bmi).1 = "Underweight") ∧
    (18.5 ≤ bmi → bmi < 24.9 → (categorize_bmi bmi).1 = "Normal") ∧
    (24.9 ≤ bmi → bmi < 29.9 → (categorize_bmi bmi).1 = "Overweight") ∧
    (29.9 ≤ bmi → (categorize_bmi bmi).1 = "Obesity") ∧
    (categorize_bmi 29.9).1 = "Obesity" ∧
    (categorize_bmi 29.89).1 = "Overweight" ∧
    (categorize_bmi 18.5).1 = "Normal" := by
  refine ⟨?_, ?_, ?_, ?_, ?_, ?_, ?_⟩ <;>
    · intros
      rw [categorize_bmi]
      split_ifs <;> first | rfl | linarith

/-- Witness for C1 at the described inputs. -/
theorem categorize_bmi_thresholds_witness :
    (categorize_bmi 17).1 = "Underweight" ∧ (categorize_bmi 20).1 = "Normal" ∧
    (categorize_bmi 27).1 = "Overweight" ∧ (categorize_bmi 31).1 = "Obesity" :=
  ⟨(categorize_bmi_thresholds 17).1 (by norm_num),
   (categorize_bmi_thresholds 20).2.1 (by norm_num) (by norm_num),
   (categorize_bmi_thresholds 27).2.2.1 (by norm_num) (by norm_num),
   (categorize_bmi_thresholds 31).2.2.2.1 (by norm_num)⟩

/-- C3: `calculate_bmi` converts both strings to numbers, converts the height
from centimeters to meters before squaring and returns the quotient; on the
inputs 70 kg, 175 cm the result is within 0.01 of 22.86 and its category is
Normal. -/
theorem calculate_bmi_formula :
    (∀ w h wq hq, pyFloat w = some wq → pyFloat h = some hq → hq ≠ 0 →
      calculate_bmi w h = some (wq / (hq / 100) ^ 2)) ∧
    (∃ b, calculate_bmi "70" "175" = some b ∧ |b - 22.86| < 0.01 ∧
      (categorize_bmi b).1 = "Normal") := by
  constructor
  · intro w h wq hq hw hh hnz
    rw [calculate_bmi, hw, hh]
    have hne : (hq / 100 : ℚ) ^ 2 ≠ 0 := by positivity
    simp only [hne, if_false, ite_false, if_neg hne]
  · refine ⟨160 / 7, ?_, by rw [abs_lt]; constructor <;> norm_num, ?_⟩
    · rw [calculate_bmi, pyFloat_lit_70, pyFloat_lit_175]
      norm_num
    · rw [categorize_bmi]
      norm_num

/-- Witness for C3: the formula instantiated at "70", "175". -/
theorem calculate_bmi_formula_witness :
    calculate_bmi "70" "175" = some ((70 : ℚ) / ((175 : ℚ) / 100) ^ 2) :=
  calculate_bmi_formula.1 "70" "175" 70 175 pyFloat_lit_70 pyFloat_lit_175
    (by norm_num)

/-- C4: when either input fails numeric conversion, `calculate_bmi` returns
the unavailable sentinel (`None`) instead of raising. -/
theorem calculate_bmi_non_numeric (w h : String)
    (hfail : pyFloat w = none ∨ pyFloat h = none) :
    calculate_bmi w h = none := by
  rw [calculate_bmi]
  rcases hfail with hw | hh
  · rw [hw]
  · rw [hh]
    cases pyFloat w <;> rfl

/-- Witness for C4 at `calculate_bmi("abc", "175")`. -/
theorem calculate_bmi_non_numeric_witness : calculate_bmi "abc" "175" = none :=
  calculate_bmi_non_numeric "abc" "175" (Or.inl pyFloat_lit_abc)

/-- C10: `calculate_bmi` is total in the embedding: every pair of input
strings yields either a value or the unavailable sentinel, and a height that
converts to zero — whose division raises `ZeroDivisionError` inside the bare
`except` — also yields the sentinel, indistinguishable from a non-numeric
input. -/
theorem calculate_bmi_total (w h : String) :
    ((∃ b, calculate_bmi w h = some b) ∨ calculate_bmi w h = none) ∧
    (pyFloat h = some 0 → calculate_bmi w h = none) := by
  constructor
  · cases hc : calculate_bmi w h with
    | some b => exact Or.inl ⟨b, rfl⟩
    | none => exact Or.inr rfl
  · intro h0
    rw [calculate_bmi, h0]
    cases pyFloat w with
    | some wq => norm_num
    | none => rfl

/-- Witness for C10 at `calculate_bmi("70", "0")`. -/
theorem calculate_bmi_total_witness : calculate_bmi "70" "0" = none :=
  (calculate_bmi_total "70" "0").2 pyFloat_lit_0

/-- C2: when the remote call fails with message `e`, the function returns
exactly the marker string followed by `e`, propagating nothing; when it
succeeds with reply `t`, the function returns `t` verbatim. -/
theorem generate_recommendations_error_boundary (inputs : InputData)
    (remote : String → Except String String) :
    (∀ e, remote (format_prompt inputs) = Except.error e →
      generate_recommendations inputs remote =
        "Error generating recommendations: " ++ e) ∧
    (∀ t, remote (format_prompt inputs) = Except.ok t →
      generate_recommendations inputs remote = t) := by
  constructor
  · intro e he
    rw [generate_recommendations]
    simp only [he]
  · intro t ht
    rw [generate_recommendations]
    simp only [ht]

/-- A fully specified sample profile used to instantiate the handler-level
theorems. -/
def sampleInputs : InputData :=
  { name := "Asha", age := "30", gender := "Female", weight := "70",
    height := "175", veg_or_nonveg := "Vegetarian", disease := "None",
    region := "Not specified", state := "Not specified",
    allergics := "None", foodtype := "General" }

/-- Witness for C2: a failing remote call surfaces as the marker string. -/
theorem generate_recommendations_error_boundary_witness :
    generate_recommendations sampleInputs (fun _ => Except.error "quota exceeded")
      = "Error generating recommendations: quota exceeded" :=
  (generate_recommendations_error_boundary sampleInputs
    (fun _ => Except.error "quota exceeded")).1 "quota exceeded" rfl

/-- Counterexample to C5 as stated: in the Underweight branch the advisory
message is "Consider consulting with a healthcare provider about healthy
weight gain.", not the claimed text without "with". -/
theorem categorize_bmi_message_counterexample :
    (categorize_bmi 10).1 = "Underweight" ∧
    (categorize_bmi 10).2.2 ≠
      "Consider consulting a healthcare provider about healthy weight gain." := by
  constructor
  · rw [categorize_bmi]
    norm_num
  · rw [categorize_bmi]
    norm_num
    decide

/-- C5 (amended): the advisory messages are "Consider consulting with a
healthcare provider about healthy weight gain." for Underweight, "Your weight
is within a healthy range for your height." for Normal, "Consider moderate
lifestyle changes to achieve a healthier weight." for Overweight and
"Consider consulting with a healthcare provider about weight management." for
Obesity. -/
theorem categorize_bmi_messages (bmi : ℚ) :
    (bmi < 18.5 → (categorize_bmi bmi).2.2 =
      "Consider consulting with a healthcare provider about healthy weight gain.") ∧
    (18.5 ≤ bmi → bmi < 24.9 → (categorize_bmi bmi).2.2 =
      "Your weight is within a healthy range for your height.") ∧
    (24.9 ≤ bmi → bmi < 29.9 → (categorize_bmi bmi).2.2 =
      "Consider moderate lifestyle changes to achieve a healthier weight.") ∧
    (29.9 ≤ bmi → (categorize_bmi bmi).2.2 =
      "Consider consulting with a healthcare provider about weight management.") := by
  refine ⟨?_, ?_, ?_, ?_⟩ <;>
    · intros
      rw [categorize_bmi]
      split_ifs <;> first | rfl | linarith

/-- Witness for C5 (amended) in each branch. -/
theorem categorize_bmi_messages_witness :
    (categorize_bmi 17).2.2 =
      "Consider consulting with a healthcare provider about healthy weight gain." ∧
    (categorize_bmi 20).2.2 =
      "Your weight is within a healthy range for your height." ∧
    (categorize_bmi 27).2.2 =
      "Consider moderate lifestyle changes to achieve a healthier weight." ∧
    (categorize_bmi 31).2.2 =
      "Consider consulting with a healthcare provider about weight management." :=
  ⟨(categorize_bmi_messages 17).1 (by norm_num),
   (categorize_bmi_messages 20).2.1 (by norm_num) (by norm_num),
   (categorize_bmi_messages 27).2.2.1 (by norm_num) (by norm_num),
   (categorize_bmi_messages 31).2.2.2 (by norm_num)⟩

/-- C6: on a submission with all six required fields non-empty and every
optional field blank, `input_data` carries exactly the default sentinels, and
the prompt is the template filled with those sentinels. -/
theorem mk_input_data_default_sentinels (f : FormFields)
    (_hreq : f.name ≠ "" ∧ f.age ≠ "" ∧ f.gender ≠ "" ∧ f.weight ≠ "" ∧
      f.height ≠ "" ∧ f.veg_or_nonveg ≠ "")
    (hblank : f.disease = "" ∧ f.region = "" ∧ f.state = "" ∧
      f.allergics = "" ∧ f.foodtype = "") :
    mk_input_data f =
      { name := f.name, age := f.age, gender := f.gender, weight := f.weight,
        height := f.height, veg_or_nonveg := f.veg_or_nonveg,
        disease := "None", region := "Not specified", state := "Not specified",
        allergics := "None", foodtype := "General" } ∧
    format_prompt (mk_input_data f) =
      format_prompt
        { name := f.name, age := f.age, gender := f.gender, weight := f.weight,
          height := f.height, veg_or_nonveg := f.veg_or_nonveg,
          disease := "None", region := "Not specified", state := "Not specified",
          allergics := "None", foodtype := "General" } := by
  obtain ⟨hd, hr, hs, ha, hf⟩ := hblank
  have h1 : mk_input_data f =
      { name := f.name, age := f.age, gender := f.gender, weight := f.weight,
        height := f.height, veg_or_nonveg := f.veg_or_nonveg,
        disease := "None", region := "Not specified", state := "Not specified",
        allergics := "None", foodtype := "General" } := by
    rw [mk_input_data]
    simp [hd, hr, hs, ha, hf]
  exact ⟨h1, by rw [h1]⟩

/-- A sample form with every optional field left blank. -/
def sampleFormBlankOpt : FormFields :=
  { name := "Asha", age := "30", gender := "Female", weight := "70",
    height := "175", veg_or_nonveg := "Vegetarian", disease := "",
    region := "", state := "", allergics := "", foodtype := "" }

/-- Witness for C6 on a concrete blank-optionals submission. -/
theorem mk_input_data_default_sentinels_witness :
    mk_input_data sampleFormBlankOpt =
      { name := "Asha", age := "30", gender := "Female", weight := "70",
        height := "175", veg_or_nonveg := "Vegetarian", disease := "None",
        region := "Not specified", state := "Not specified",
        allergics := "None", foodtype := "General" } :=
  (mk_input_data_default_sentinels sampleFormBlankOpt (by decide)
    ⟨rfl, rfl, rfl, rfl, rfl⟩).1

/-- C7: when a required field is empty, the handler reports the validation
error, leaves the usage list unchanged, renders no recommendations, and the
outcome does not depend on the remote model at all. -/
theorem missing_required_short_circuits (f : FormFields)
    (remote : String → Except String String) (log : List UsageEntry) (now : Nat)
    (hmiss : f.name = "" ∨ f.age = "" ∨ f.gender = "" ∨ f.weight = "" ∨
      f.height = "" ∨ f.veg_or_nonveg = "") :
    (submit_handler f remote log now).validation_error = true ∧
    (submit_handler f remote log now).remote_called = false ∧
    (submit_handler f remote log now).usage_data = log ∧
    (submit_handler f remote log now).recommendations = none ∧
    ∀ remote2, submit_handler f remote log now = submit_handler f remote2 log now := by
  have hcond : ¬(f.name ≠ "" ∧ f.age ≠ "" ∧ f.gender ≠ "" ∧ f.weight ≠ "" ∧
      f.height ≠ "" ∧ f.veg_or_nonveg ≠ "") := by tauto
  have hres : submit_handler f remote log now =
      { validation_error := true, remote_called := false,
        bmi_panel := none, recommendations := none, usage_data := log } := by
    rw [submit_handler, if_neg hcond]
  refine ⟨by rw [hres], by rw [hres], by rw [hres], by rw [hres], ?_⟩
  intro remote2
  rw [hres, submit_handler, if_neg hcond]

/-- A sample form whose required name field is blank. -/
def sampleFormNoName : FormFields :=
  { name := "", age := "30", gender := "Female", weight := "70",
    height := "175", veg_or_nonveg := "Vegetarian", disease := "",
    region := "", state := "", allergics := "", foodtype := "" }

/-- Witness for C7 on a blank-name submission. -/
theorem missing_required_short_circuits_witness :
    (submit_handler sampleFormNoName (fun _ => Except.ok "menu") [] 0).remote_called
        = false ∧
    (submit_handler sampleFormNoName (fun _ => Except.ok "menu") [] 0).usage_data
        = [] :=
  ⟨(missing_required_short_circuits sampleFormNoName (fun _ => Except.ok "menu")
      [] 0 (Or.inl rfl)).2.1,
   (missing_required_short_circuits sampleFormNoName (fun _ => Except.ok "menu")
      [] 0 (Or.inl rfl)).2.2.1⟩

/-- C8: on a valid submission whose weight or height fails to parse, only the
BMI panel is omitted; the recommendation text is exactly what the remote
model returns for the profile-built prompt, independent of the BMI failure. -/
theorem bmi_failure_keeps_recommendations (f : FormFields)
    (remote : String → Except String String) (log : List UsageEntry) (now : Nat)
    (hreq : f.name ≠ "" ∧ f.age ≠ "" ∧ f.gender ≠ "" ∧ f.weight ≠ "" ∧
      f.height ≠ "" ∧ f.veg_or_nonveg ≠ "")
    (hparse : calculate_bmi f.weight f.height = none) :
    (submit_handler f remote log now).bmi_panel = none ∧
    (submit_handler f remote log now).recommendations =
      some (generate_recommendations (mk_input_data f) remote) := by
  rw [submit_handler, if_pos hreq]
  simp only [hparse]
  constructor <;> trivial

/-- Evaluation helper: a non-numeric weight makes `calculate_bmi` fail. -/
theorem calculate_bmi_lit_abc_175 : calculate_bmi "abc" "175" = none := by
  rw [calculate_bmi, pyFloat_lit_abc]

/-- A sample form with a non-numeric weight but all required fields present. -/
def sampleFormBadWeight : FormFields :=
  { name := "Asha", age := "30", gender := "Female", weight := "abc",
    height := "175", veg_or_nonveg := "Vegetarian", disease := "",
    region := "", state := "", allergics := "", foodtype := "" }

/-- Witness for C8 on a non-numeric-weight submission. -/
theorem bmi_failure_keeps_recommendations_witness :
    (submit_handler sampleFormBadWeight (fun _ => Except.ok "menu") [] 0).bmi_panel
        = none ∧
    (submit_handler sampleFormBadWeight (fun _ => Except.ok "menu") [] 0).recommendations
        = some (generate_recommendations (mk_input_data sampleFormBadWeight)
            (fun _ => Except.ok "menu")) :=
  bmi_failure_keeps_recommendations sampleFormBadWeight (fun _ => Except.ok "menu")
    [] 0 (by decide) calculate_bmi_lit_abc_175

/-- Counterexample to C9 as stated: a present-but-blank age is recorded as
the empty string, not as "Unknown" — `dict.get` defaults only on an absent
key. -/
theorem capture_usage_blank_counterexample :
    capture_usage [] 0 ⟨some "", some ""⟩ =
      [{ timestamp := 0, user_age := "", user_region := "" }] ∧
    ("" : String) ≠ "Unknown" := by
  exact ⟨rfl, by decide⟩

/-- C9 (amended): `capture_usage` appends exactly one record with the given
timestamp to the end of the usage list, leaving the previous records
unchanged; the recorded age/region is "Unknown" exactly when the key is
absent from the profile dict, while a present value — blank included — is
recorded verbatim. -/
theorem capture_usage_appends_one (log : List UsageEntry) (now : Nat)
    (d : UserDataView) :
    ∃ e : UsageEntry,
      capture_usage log now d = log ++ [e] ∧
      e.timestamp = now ∧
      (d.age = none → e.user_age = "Unknown") ∧
      (∀ a, d.age = some a → e.user_age = a) ∧
      (d.region = none → e.user_region = "Unknown") ∧
      (∀ r, d.region = some r → e.user_region = r) := by
  refine ⟨_, rfl, rfl, ?_, ?_, ?_, ?_⟩
  · intro h
    simp [h]
  · intro a h
    simp [h]
  · intro h
    simp [h]
  · intro r h
    simp [h]

/-- Witness for C9 (amended): an absent age records "Unknown", a present
region is recorded verbatim. -/
theorem capture_usage_appends_one_witness :
    capture_usage [] 5 ⟨none, some "Pune"⟩ =
      [{ timestamp := 5, user_age := "Unknown", user_region := "Pune" }] := by
  obtain ⟨e, he, ht, han, _, _, hrs⟩ := capture_usage_appends_one [] 5 ⟨none, some "Pune"⟩
  have h1 := han rfl
  have h2 := hrs "Pune" rfl
  rw [he, List.nil_append]
  cases e
  simp_all
